import Mathlib

/-!
Shallow embedding, in Lean 4, of the parts of the repository
`AlexMonllor/Proyecto_final_FP` that the verified properties below are
about:

* `src/utils/incremental.py` — the incremental batch-training engine
  (`imputar_valores_faltantes`, `crear_pipeline_incremental`,
  `entrenar_por_lotes`);
* `src/entrenar_modelo.py` — the incremental-branch model-load /
  schema-drift reconciliation step of `main`;
* `src/addons/ai_train_model/project/utils/evaluacion.py` —
  `evaluar_modelo`'s error routing.

Modelling conventions
---------------------
* sklearn `Pipeline.fit` on this repository's pipelines is a *full refit*
  (GradientBoosting has no partial-fit path here), so a fitted pipeline's
  learned state is determined by its hyperparameters plus the rows it was
  last fit on (`random_state = 42` makes the refit deterministic).  A
  pipeline is therefore embedded as its hyperparameters together with an
  optional fit record: the list of row indices of the data it was last fit
  on.  `clone` drops the fit record, exactly like `sklearn.base.clone`.
* numpy randomness (`np.random.choice`, `np.random.shuffle`) is embedded
  by passing the drawn index lists in as explicit arguments (the
  warm-start index draw, the evaluation-holdout draw, one permutation of
  all row indices per epoch).
* The numeric outcome of fitting and scoring (what R² value a model fit
  on given rows attains on the frozen holdout, and whether a given
  fit/predict call raises) is embedded as an explicit oracle, since those
  values come from floating-point GBM training that is outside a shallow
  embedding; the *control flow* around those values is embedded exactly as
  written in the source.
* A Python exception that the source catches is embedded as a value the
  embedded code branches on; an exception the source does not catch is an
  `Except.error` result of the embedded function.
-/

namespace Incremental

/-- Hyperparameters of the base `GradientBoostingRegressor` built by
`crear_pipeline_incremental` (src/utils/incremental.py lines 26-34). -/
structure Hiperparametros where
  n_estimators : Nat
  learning_rate : ℚ
  max_depth : Nat
  min_samples_split : Nat
  min_samples_leaf : Nat
  subsample : ℚ
  random_state : Nat
deriving DecidableEq, Repr

/-- A (possibly fitted) sklearn pipeline.  `fitted = some rows` means the
pipeline was last fully fit on the training rows with the given indices;
`fitted = none` is an untrained pipeline (fresh from the factory or from
`clone`).  Because every `fit` in `entrenar_por_lotes` is a full refit with
a fixed random seed, this captures the whole learned state. -/
structure Modelo where
  hyper : Hiperparametros
  fitted : Option (List Nat)
deriving DecidableEq, Repr

/-- `crear_pipeline_incremental` (src/utils/incremental.py lines 24-40):
fresh untrained pipeline with the fixed hyperparameters. -/
def crear_pipeline_incremental : Modelo :=
  { hyper := { n_estimators := 300, learning_rate := 5/100, max_depth := 4,
               min_samples_split := 5, min_samples_leaf := 3,
               subsample := 8/10, random_state := 42 },
    fitted := none }

/-- `modelo.fit(X[rows], y[rows])`: full deterministic refit on the given
rows; replaces the learned state. -/
def fit (m : Modelo) (rows : List Nat) : Modelo :=
  { m with fitted := some rows }

/-- `sklearn.base.clone`: same hyperparameters, no learned state. -/
def clone (m : Modelo) : Modelo :=
  { m with fitted := none }

/-- Numeric outcome of training, for one fixed run (fixed `X`, `y` and
evaluation holdout).  The `try` block of the batch loop can raise at two
distinct points, with different state left behind: `fitFails rows` says
whether `modelo.fit` on the batch with these row indices raises (before
the live pipeline is mutated), and `scoreFails rows` says whether
`modelo.predict(X_eval)` / `r2_score` raises *after* a successful fit on
those rows (the live pipeline has already been refit in place by then).
`score rows` is the value `r2_score(y_eval, modelo.predict(X_eval))` of
the pipeline freshly fit on those rows, meaningful when neither raises.
(All three depend only on the fit record because each fit is a full
deterministic refit.) -/
structure Oracle where
  fitFails : List Nat → Bool
  scoreFails : List Nat → Bool
  score : List Nat → ℚ

/-- Mutable loop state of `entrenar_por_lotes`: the live in-place pipeline
`modelo`, `mejor_score` (`none` embeds the initial `-np.inf`), and
`mejor_modelo` (`none` embeds Python `None`). -/
structure TrainState where
  modelo : Modelo
  mejorScore : Option ℚ
  mejorModelo : Option Modelo
deriving DecidableEq, Repr

/-- `score > mejor_score`, where `mejor_score` starts at `-np.inf`
(embedded as `none`): every real score beats `-inf`. -/
def scoreBeats (s : ℚ) (best : Option ℚ) : Bool :=
  match best with
  | none => true
  | some b => decide (b < s)

/-- Body of the inner batch loop of `entrenar_por_lotes`
(src/utils/incremental.py lines 89-112) for one batch: inside `try`, refit
the live pipeline in place on the batch (line 98), score it on the frozen
holdout (line 101), and on strict improvement record the score and set
`mejor_modelo` to a fresh clone refit on that same batch (lines 103-106).
The `except` branch only logs and `continue`s, it undoes nothing: an
exception raised by `modelo.fit` leaves the state as it was, but an
exception raised by `modelo.predict`/`r2_score` happens after the live
pipeline was already refit in place on the batch, so only `mejor_score`
and `mejor_modelo` stay unchanged in that case. -/
def procesarBatch (o : Oracle) (st : TrainState) (batch : List Nat) : TrainState :=
  if o.fitFails batch then st
  else
    let modelo' := fit st.modelo batch
    if o.scoreFails batch then { st with modelo := modelo' }
    else
      let score := o.score batch
      if scoreBeats score st.mejorScore then
        { modelo := modelo',
          mejorScore := some score,
          mejorModelo := some (fit (clone modelo') batch) }
      else { st with modelo := modelo' }

/-- Start indices of the batch loop: `range(0, n_samples, batch_size)`
(src/utils/incremental.py line 89); for `B ≥ 1` these are
`0, B, 2B, …`, `⌈n/B⌉` of them. -/
def batchStarts (n B : Nat) : List Nat :=
  (List.range ((n + B - 1) / B)).map (· * B)

/-- The batches of one epoch: `indices[start_idx:end_idx]` with
`end_idx = min(start_idx + batch_size, n_samples)` for each start index,
where `indices` is this epoch's shuffled permutation of all row indices. -/
def batchesOf (n : Nat) (indices : List Nat) (B : Nat) : List (List Nat) :=
  (batchStarts n B).map (fun s => (indices.drop s).take B)

/-- All batches of the whole run, in processing order: epoch `e` uses the
reshuffled permutation `perms e` (src/utils/incremental.py line 87). -/
def lotesDeEpocas (n : Nat) (perms : Nat → List Nat) (B E : Nat) : List (List Nat) :=
  ((List.range E).map (fun e => batchesOf n (perms e) B)).flatten

/-- The epoch loop (src/utils/incremental.py lines 85-112): for each of
the `E` epochs, fold the batch step over that epoch's batches.  There is
no early stopping: every epoch runs in full. -/
def entrenarEpocas (o : Oracle) (n : Nat) (perms : Nat → List Nat)
    (B E : Nat) (st : TrainState) : TrainState :=
  (List.range E).foldl
    (fun st e => (batchesOf n (perms e) B).foldl (procesarBatch o) st) st

/-- `entrenar_por_lotes` (src/utils/incremental.py lines 42-133).
Arguments: the optional pre-existing pipeline, the row count `n`
(= `X.shape[0]` = `y.shape[0]`), batch size, epoch count, the drawn
warm-start index sample `initIdx` (line 71), the per-epoch shuffles
`perms`, and the run's fit/score oracle.  The warm-start fit (line 72) is
outside any `try`, so if it raises, the exception propagates
(`Except.error`).  The report-generation step (lines 117-131) is wrapped
in its own `try` whose failure is only logged, so it does not affect the
returned value; line 133 returns `mejor_modelo` if set, else the live
pipeline. -/
def entrenar_por_lotes (modelo : Option Modelo) (n B E : Nat)
    (initIdx : List Nat) (perms : Nat → List Nat) (o : Oracle) :
    Except Unit Modelo :=
  let modelo0 := modelo.getD crear_pipeline_incremental
  if o.fitFails initIdx then Except.error ()
  else
    let st0 : TrainState := { modelo := fit modelo0 initIdx,
                              mejorScore := none, mejorModelo := none }
    let stF := entrenarEpocas o n perms B E st0
    Except.ok (stF.mejorModelo.getD stF.modelo)

/-- Holdout R² of a fitted model under the run's oracle: defined exactly
when the model has been fit, and then equal to the oracle's score of its
fit record. -/
def scoreOf (o : Oracle) (m : Modelo) : Option ℚ :=
  m.fitted.map o.score

/-- Whether any row index of any of the given batches belongs to the
evaluation-holdout index list. -/
def usaFilasHoldout (batches : List (List Nat)) (evalIdx : List Nat) : Bool :=
  batches.any (fun b => b.any (fun i => evalIdx.contains i))

/-- Run invariant of the loop state: `mejor_score` and `mejor_modelo` are
set together, and whenever `mejor_modelo` is set, its holdout score under
the run's oracle is exactly `mejor_score`. -/
def invEstado (o : Oracle) (st : TrainState) : Prop :=
  st.mejorScore.isSome = st.mejorModelo.isSome
  ∧ ∀ m, st.mejorModelo = some m → scoreOf o m = st.mejorScore

/-- Order on `mejor_score` values, with `none` playing `-np.inf`. -/
def leO : Option ℚ → Option ℚ → Prop
  | none, _ => True
  | some _, none => False
  | some a, some b => a ≤ b

/-- A run oracle in which nothing ever raises and every batch scores `0`
on the holdout. -/
def oracleConst : Oracle :=
  { fitFails := fun _ => false, scoreFails := fun _ => false,
    score := fun _ => 0 }

/-- A run oracle for a dataset of two rows on which the model fit on both
rows (the warm-start sample) attains holdout R² `0`, while a model fit on
any single-row batch attains holdout R² `-1` (with `min_samples_leaf = 3`
every fit predicts a constant, so the warm-start model scores `0` on the
holdout and a single-row fit scores `-1`); nothing raises. -/
def oracleWarmMejor : Oracle :=
  { fitFails := fun _ => false, scoreFails := fun _ => false,
    score := fun l => if l = [0, 1] then 0 else -1 }

/-- A run oracle in which every fit succeeds but every holdout
prediction/scoring raises (e.g. `y_eval` contains NaN rows, so
`r2_score` raises on every batch). -/
def oraclePredictFallaTodo : Oracle :=
  { fitFails := fun _ => false, scoreFails := fun _ => true,
    score := fun _ => 0 }

/-- A run oracle in which every fit succeeds and exactly the batch `[1]`
raises during holdout prediction/scoring; every computed score is `0`. -/
def oraclePredictFallaLote : Oracle :=
  { fitFails := fun _ => false, scoreFails := fun b => decide (b = [1]),
    score := fun _ => 0 }

/-- Two loop states that agree on everything the checkpointing logic can
observe: `mejor_score`, `mejor_modelo`, and the live pipeline's
hyperparameters (the only part of the live pipeline that flows into a
checkpoint, via `clone`). -/
def mismaSeleccion (st st' : TrainState) : Prop :=
  st.mejorScore = st'.mejorScore
  ∧ st.mejorModelo = st'.mejorModelo
  ∧ st.modelo.hyper = st'.modelo.hyper

end Incremental

namespace EntrenarModelo

/-- The persisted bundle `{'modelo': …, 'columnas': …}` loaded by
`joblib.load` in `src/entrenar_modelo.py` line 78.  `modeloArity` embeds
the stored pipeline's `n_outputs_` attribute: `none` when `hasattr(modelo,
'n_outputs_')` is false, `some k` when the stored model reports `k`
outputs.  `columnas` embeds `modelo_dict.get('columnas', None)`; what
line 105 stores there is the previous run's `columnas_procesadas`, i.e.
that run's resolved *target*-column list (`seleccionar_columnas_entrenamiento`
returns `columnas_objetivo` as its third component,
src/utils/train_column.py line 60). -/
structure Bundle where
  modeloArity : Option Nat
  columnas : Option (List String)
deriving DecidableEq, Repr

/-- The pipeline variable `modelo` of the incremental branch of `main`:
either the stored pipeline reused in place, or a fresh untrained pipeline
built by `crear_pipeline_multioutput()`
(src/addons/ai_train_model/project/utils/pipelines.py). -/
inductive ModeloCargado where
  | almacenado (arity : Option Nat)
  | nuevo
deriving DecidableEq, Repr

/-- The output-arity compatibility check of `main`
(src/entrenar_modelo.py lines 82-86): `if hasattr(modelo, 'n_outputs_')
and modelo.n_outputs_ != y.shape[1]: modelo = crear_pipeline_multioutput()`. -/
def verificar_arity (modelo : ModeloCargado) (nTargets : Nat) : ModeloCargado :=
  match modelo with
  | ModeloCargado.almacenado (some k) =>
      if k ≠ nTargets then ModeloCargado.nuevo else modelo
  | m => m

/-- Python `set(a) != set(b)` as used on column-name lists
(src/entrenar_modelo.py line 89), negated: `true` iff the two lists have
the same elements as sets. -/
def setEq (a b : List String) : Bool :=
  a.all (fun c => b.contains c) && b.all (fun c => a.contains c)

/-- pandas column selection `X[cols]` on a DataFrame whose columns are
`dfCols` (src/entrenar_modelo.py line 93).  Raises `KeyError` when any
requested column is absent from the frame; otherwise the result has
exactly the requested columns, in the requested order. -/
def seleccionarColumnasDf (cols dfCols : List String) :
    Except String (List String) :=
  if cols.all (fun c => dfCols.contains c) then Except.ok cols
  else Except.error "KeyError: columns not in index"

/-- The model-load / schema-drift step of the incremental branch of `main`
(src/entrenar_modelo.py lines 76-93), for a run in which a stored bundle
exists on disk.  Two different column lists are in play and the code
conflates them: `columnas_procesadas` is the *target*-column list of the
current run (train_column.py line 60 returns `columnas_objetivo`), and it
is what line 89 compares the stored `'columnas'` list against;
`nTargets` is `y.shape[1]` (equal to `columnas_procesadas.length` in
every real run).  `xCols` are the columns of the engineered feature
frame `X` (train_column.py lines 34-36: numeric and one-hot-encoded
features, which *exclude* the current targets); line 93's
`X = X[columnas_modelo]` selects from that frame, so its uncaught
`KeyError` is keyed on `xCols`, not on the target list.  Returns the
pipeline to train, the column list of the (possibly re-selected) `X`,
and whether a drift warning was emitted; propagates the `KeyError` as an
`Except.error`. -/
def cargar_y_alinear (bundle : Bundle) (nTargets : Nat)
    (columnas_procesadas xCols : List String) :
    Except String (ModeloCargado × List String × Bool) :=
  let modelo := verificar_arity (ModeloCargado.almacenado bundle.modeloArity) nTargets
  match bundle.columnas with
  | some cols =>
      if cols ≠ [] ∧ ¬ setEq cols columnas_procesadas then
        match seleccionarColumnasDf cols xCols with
        | Except.ok xcs => Except.ok (modelo, xcs, true)
        | Except.error e => Except.error e
      else Except.ok (modelo, xCols, false)
  | none => Except.ok (modelo, xCols, false)

end EntrenarModelo

namespace Evaluacion

/-- The cross-validation metrics recorded under `resultados['cv']` on
success (evaluacion.py lines 27-34). -/
structure CvMetricas where
  r2_mean : ℚ
  r2_std : ℚ
  rmse_mean : ℚ
  rmse_std : ℚ
  mse_mean : ℚ
  mse_std : ℚ
deriving DecidableEq, Repr

/-- The holdout metrics recorded under `resultados['validation']` on
success (evaluacion.py lines 56-60). -/
structure ValMetricas where
  r2 : ℚ
  rmse : ℚ
  mse : ℚ
deriving DecidableEq, Repr

/-- A Python exception, classified by whether it is a `ValueError`
(the only class the holdout block catches, evaluacion.py line 61) or some
other exception class; carries `str(e)`. -/
inductive PyError where
  | valueError (msg : String)
  | otherError (msg : String)
deriving DecidableEq, Repr

/-- `str(e)` of an embedded exception. -/
def PyError.msg : PyError → String
  | PyError.valueError m => m
  | PyError.otherError m => m

/-- `resultados['cv']`: metrics, or the all-`None` dictionary with an
`'error'` entry written on cross-validation failure
(evaluacion.py lines 37-45). -/
inductive CvResultado where
  | metricas (m : CvMetricas)
  | noDisponible (err : String)
deriving DecidableEq, Repr

/-- `resultados['validation']`: metrics, or the all-`None` dictionary
written when the holdout evaluation raises a `ValueError`
(evaluacion.py lines 63-67). -/
inductive ValResultado where
  | metricas (m : ValMetricas)
  | noDisponible
deriving DecidableEq, Repr

/-- The dictionary returned by `evaluar_modelo`: a `cv` entry, and a
`validation` entry present only when a holdout set was supplied and its
block ran to a recorded outcome. -/
structure Resultados where
  cv : CvResultado
  validation : Option ValResultado
deriving DecidableEq, Repr

/-- `evaluar_modelo`
(src/addons/ai_train_model/project/utils/evaluacion.py lines 9-68).
`cvCalc` is the outcome of the cross-validation computations of the first
`try` block (lines 20-26): metrics, or the exception raised.  `valCalc` is
`none` when no holdout was supplied (`X_val is None or y_val is None`),
and otherwise the outcome of `predict` + metric computation on the holdout
(lines 49-52).  The first `try` catches every exception (line 35); the
holdout `try` catches only `ValueError` (line 61), so any other exception
there propagates out of `evaluar_modelo`. -/
def evaluar_modelo (cvCalc : Except PyError CvMetricas)
    (valCalc : Option (Except PyError ValMetricas)) :
    Except PyError Resultados :=
  let cvEntry :=
    match cvCalc with
    | Except.ok m => CvResultado.metricas m
    | Except.error e => CvResultado.noDisponible e.msg
  match valCalc with
  | none => Except.ok { cv := cvEntry, validation := none }
  | some (Except.ok m) =>
      Except.ok { cv := cvEntry, validation := some (ValResultado.metricas m) }
  | some (Except.error (PyError.valueError _)) =>
      Except.ok { cv := cvEntry, validation := some ValResultado.noDisponible }
  | some (Except.error (PyError.otherError m)) =>
      Except.error (PyError.otherError m)

end Evaluacion

namespace Imputacion

/-- A value passed to `imputar_valores_faltantes`: either a numpy
`ndarray` (rows of optionally-missing numeric cells) or a pandas
`DataFrame` with named columns (the only two shapes this pipeline feeds
it; the function's test is `isinstance(X, np.ndarray)`). -/
inductive Datos where
  | ndarray (filas : List (List (Option ℚ)))
  | dataframe (columnas : List String) (filas : List (List (Option ℚ)))
deriving DecidableEq, Repr

/-- Column mean over the non-missing entries; `none` when the whole
column is missing. -/
def mediaColumna (col : List (Option ℚ)) : Option ℚ :=
  let presentes := col.filterMap id
  if presentes.length = 0 then none
  else some (presentes.sum / (presentes.length : ℚ))

/-- `SimpleImputer(strategy='mean').fit_transform`: each missing cell is
replaced by its column's mean of the observed values; a column with no
observed value at all is dropped (sklearn drops all-missing columns). -/
def fitTransformMedia (filas : List (List (Option ℚ))) : List (List ℚ) :=
  let columnas := filas.transpose
  let imputadas := columnas.filterMap
    (fun col => (mediaColumna col).map (fun m => col.map (fun v => v.getD m)))
  imputadas.transpose

/-- `imputar_valores_faltantes` (src/utils/incremental.py lines 17-22):
mean-imputes only when `isinstance(X, np.ndarray)`; any other input — in
particular a pandas DataFrame — is returned unchanged. -/
def imputar_valores_faltantes : Datos → Datos
  | Datos.ndarray filas =>
      Datos.ndarray ((fitTransformMedia filas).map (fun f => f.map some))
  | x => x

end Imputacion

namespace Incremental

/-- A batch whose `fit` raises leaves the loop state untouched
(the `except` branch just logs and `continue`s, and nothing was mutated
before the raise). -/
lemma procesarBatch_of_fail (o : Oracle) (st : TrainState) (b : List Nat)
    (h : o.fitFails b = true) : procesarBatch o st b = st := by
  simp [procesarBatch, h]

/-- A batch whose fit succeeds but whose holdout prediction/scoring
raises leaves `mejor_score` and `mejor_modelo` untouched, but the live
pipeline has already been refit in place on the batch. -/
lemma procesarBatch_of_scoreFail (o : Oracle) (st : TrainState) (b : List Nat)
    (h : o.fitFails b = false) (h2 : o.scoreFails b = true) :
    procesarBatch o st b = { st with modelo := fit st.modelo b } := by
  simp [procesarBatch, h, h2]

/-- Folding the batch step over a batch list is the same as folding it
over the sublist of batches whose `try` block does not raise. -/
lemma foldl_procesarBatch_filter (o : Oracle) :
    ∀ (l : List (List Nat)) (st : TrainState),
      l.foldl (procesarBatch o) st
        = (l.filter (fun b => !o.fitFails b)).foldl (procesarBatch o) st := by
  intro l
  induction l with
  | nil => intro st; rfl
  | cons b t ih =>
      intro st
      cases hf : o.fitFails b with
      | false => simp [List.filter_cons, hf, ih]
      | true => simp [List.filter_cons, hf, procesarBatch_of_fail o st b hf, ih]

/-- The nested epoch/batch fold equals one fold over the concatenated
batch list of all epochs. -/
lemma entrenarEpocas_eq_foldl (o : Oracle) (n : Nat) (perms : Nat → List Nat)
    (B E : Nat) (st : TrainState) :
    entrenarEpocas o n perms B E st
      = (lotesDeEpocas n perms B E).foldl (procesarBatch o) st := by
  unfold entrenarEpocas lotesDeEpocas
  rw [List.foldl_flatten, List.foldl_map]

/-- One batch step preserves the run invariant. -/
lemma invEstado_procesarBatch (o : Oracle) (st : TrainState) (b : List Nat)
    (h : invEstado o st) : invEstado o (procesarBatch o st b) := by
  cases hf : o.fitFails b with
  | true => rwa [procesarBatch_of_fail o st b hf]
  | false =>
      cases hsf : o.scoreFails b with
      | true =>
          rw [procesarBatch_of_scoreFail o st b hf hsf]
          exact h
      | false =>
          cases hsb : scoreBeats (o.score b) st.mejorScore with
          | false => simpa [procesarBatch, hf, hsf, hsb] using h
          | true =>
              constructor
              · simp [procesarBatch, hf, hsf, hsb]
              · intro m hm
                simp only [procesarBatch, hf, hsf, hsb] at hm ⊢
                simp only [Bool.false_eq_true, if_false, if_true,
                  Option.some.injEq] at hm
                subst hm
                simp [scoreOf, fit, clone]

/-- The whole fold preserves the run invariant. -/
lemma invEstado_foldl (o : Oracle) :
    ∀ (l : List (List Nat)) (st : TrainState),
      invEstado o st → invEstado o (l.foldl (procesarBatch o) st) := by
  intro l
  induction l with
  | nil => intro st h; exact h
  | cons b t ih => intro st h; exact ih _ (invEstado_procesarBatch o st b h)

/-- If `score > mejor_score` fails, `mejor_score` was a real value at
least as large as the score. -/
lemma scoreBeats_eq_false {s : ℚ} {best : Option ℚ}
    (h : scoreBeats s best = false) : ∃ b, best = some b ∧ s ≤ b := by
  cases best with
  | none => simp [scoreBeats] at h
  | some b =>
      refine ⟨b, rfl, ?_⟩
      simp only [scoreBeats, decide_eq_false_iff_not] at h
      exact le_of_not_lt h

/-- After folding over a batch list, `mejor_modelo` is set exactly when
it was already set or some batch in the list runs its whole `try` block
(fit and holdout scoring) without raising. -/
lemma mejorModelo_isSome_foldl (o : Oracle) :
    ∀ (l : List (List Nat)) (st : TrainState), invEstado o st →
      (l.foldl (procesarBatch o) st).mejorModelo.isSome
        = (st.mejorModelo.isSome
            || l.any (fun b => !o.fitFails b && !o.scoreFails b)) := by
  intro l
  induction l with
  | nil => intro st _; simp
  | cons b t ih =>
      intro st h
      rw [List.foldl_cons, ih _ (invEstado_procesarBatch o st b h), List.any_cons]
      cases hf : o.fitFails b with
      | true => rw [procesarBatch_of_fail o st b hf]; simp
      | false =>
          cases hsf : o.scoreFails b with
          | true => rw [procesarBatch_of_scoreFail o st b hf hsf]; simp [hsf]
          | false =>
              cases hsb : scoreBeats (o.score b) st.mejorScore with
              | true => simp [procesarBatch, hf, hsf, hsb]
              | false =>
                  obtain ⟨bv, hbv, -⟩ := scoreBeats_eq_false hsb
                  have hsome : st.mejorModelo.isSome = true := by
                    rw [← h.1, hbv]; rfl
                  simp [procesarBatch, hf, hsf, hsb, hsome]

lemma leO_refl : ∀ x : Option ℚ, leO x x
  | none => trivial
  | some _ => le_refl _

lemma leO_trans : ∀ {x y z : Option ℚ}, leO x y → leO y z → leO x z
  | none, _, _, _, _ => trivial
  | some _, none, _, h, _ => absurd h not_false
  | some _, some _, none, _, h => absurd h not_false
  | some _, some _, some _, h1, h2 => le_trans h1 h2

/-- `mejor_score` never decreases across one batch step. -/
lemma leO_procesarBatch (o : Oracle) (st : TrainState) (b : List Nat) :
    leO st.mejorScore (procesarBatch o st b).mejorScore := by
  cases hf : o.fitFails b with
  | true => rw [procesarBatch_of_fail o st b hf]; exact leO_refl _
  | false =>
      cases hsf : o.scoreFails b with
      | true => rw [procesarBatch_of_scoreFail o st b hf hsf]; exact leO_refl _
      | false =>
          cases hsb : scoreBeats (o.score b) st.mejorScore with
          | false =>
              simp only [procesarBatch, hf, hsf, hsb]
              simp
              exact leO_refl _
          | true =>
              simp only [procesarBatch, hf, hsf, hsb]
              simp only [Bool.false_eq_true, if_false, if_true]
              cases hb : st.mejorScore with
              | none => trivial
              | some bv =>
                  have : scoreBeats (o.score b) st.mejorScore
                      = decide (bv < o.score b) := by
                    rw [hb]; rfl
                  rw [this, decide_eq_true_iff] at hsb
                  exact le_of_lt hsb

/-- `mejor_score` never decreases across a whole fold. -/
lemma leO_foldl (o : Oracle) :
    ∀ (l : List (List Nat)) (st : TrainState),
      leO st.mejorScore ((l.foldl (procesarBatch o) st).mejorScore) := by
  intro l
  induction l with
  | nil => intro st; exact leO_refl _
  | cons b t ih =>
      intro st
      exact leO_trans (leO_procesarBatch o st b) (ih (procesarBatch o st b))

/-- After a fully non-raising batch step, `mejor_score` is at least that
batch's holdout score. -/
lemma score_le_procesarBatch (o : Oracle) (st : TrainState) (b : List Nat)
    (h : o.fitFails b = false) (h2 : o.scoreFails b = false) :
    leO (some (o.score b)) (procesarBatch o st b).mejorScore := by
  cases hsb : scoreBeats (o.score b) st.mejorScore with
  | true =>
      simp only [procesarBatch, h, h2, hsb]
      simp only [Bool.false_eq_true, if_false, if_true]
      exact le_refl _
  | false =>
      obtain ⟨bv, hbv, hle⟩ := scoreBeats_eq_false hsb
      simp only [procesarBatch, h, h2, hsb]
      simp only [Bool.false_eq_true, if_false]
      rw [hbv]
      exact hle

/-- After folding over a batch list, `mejor_score` dominates the holdout
score of every fully non-raising batch in the list. -/
lemma score_le_foldl_mem (o : Oracle) {l : List (List Nat)} {b : List Nat}
    (st : TrainState) (hb : b ∈ l) (hf : o.fitFails b = false)
    (hs : o.scoreFails b = false) :
    leO (some (o.score b)) ((l.foldl (procesarBatch o) st).mejorScore) := by
  obtain ⟨s, t, rfl⟩ := List.append_of_mem hb
  rw [List.foldl_append, List.foldl_cons]
  exact leO_trans (score_le_procesarBatch o _ b hf hs) (leO_foldl o t _)

lemma mismaSeleccion_refl (st : TrainState) : mismaSeleccion st st :=
  ⟨rfl, rfl, rfl⟩

lemma mismaSeleccion_trans {s1 s2 s3 : TrainState}
    (h : mismaSeleccion s1 s2) (h' : mismaSeleccion s2 s3) :
    mismaSeleccion s1 s3 :=
  ⟨h.1.trans h'.1, h.2.1.trans h'.2.1, h.2.2.trans h'.2.2⟩

/-- One batch step is a congruence for `mismaSeleccion`: the
checkpointing outcome of a batch depends only on `mejor_score`,
`mejor_modelo` and the live pipeline's hyperparameters, never on the
live pipeline's learned state. -/
lemma mismaSeleccion_procesarBatch (o : Oracle) {st st' : TrainState}
    (b : List Nat) (h : mismaSeleccion st st') :
    mismaSeleccion (procesarBatch o st b) (procesarBatch o st' b) := by
  obtain ⟨h1, h2, h3⟩ := h
  cases hf : o.fitFails b with
  | true =>
      rw [procesarBatch_of_fail o st b hf, procesarBatch_of_fail o st' b hf]
      exact ⟨h1, h2, h3⟩
  | false =>
      cases hsf : o.scoreFails b with
      | true =>
          rw [procesarBatch_of_scoreFail o st b hf hsf,
            procesarBatch_of_scoreFail o st' b hf hsf]
          exact ⟨h1, h2, h3⟩
      | false =>
          cases hsb : scoreBeats (o.score b) st.mejorScore with
          | true =>
              have hsb' : scoreBeats (o.score b) st'.mejorScore = true := by
                rw [← h1]; exact hsb
              have e1 : procesarBatch o st b
                  = { modelo := fit st.modelo b,
                      mejorScore := some (o.score b),
                      mejorModelo := some (fit (clone (fit st.modelo b)) b) } := by
                simp [procesarBatch, hf, hsf, hsb]
              have e2 : procesarBatch o st' b
                  = { modelo := fit st'.modelo b,
                      mejorScore := some (o.score b),
                      mejorModelo := some (fit (clone (fit st'.modelo b)) b) } := by
                simp [procesarBatch, hf, hsf, hsb']
              rw [e1, e2]
              exact ⟨rfl, by simp [fit, clone, h3], by simp [fit, h3]⟩
          | false =>
              have hsb' : scoreBeats (o.score b) st'.mejorScore = false := by
                rw [← h1]; exact hsb
              have e1 : procesarBatch o st b
                  = { st with modelo := fit st.modelo b } := by
                simp [procesarBatch, hf, hsf, hsb]
              have e2 : procesarBatch o st' b
                  = { st' with modelo := fit st'.modelo b } := by
                simp [procesarBatch, hf, hsf, hsb']
              rw [e1, e2]
              exact ⟨h1, h2, by simp [fit, h3]⟩

/-- A batch that raises anywhere in its `try` block leaves `mejor_score`,
`mejor_modelo` and the live hyperparameters as they were (only the live
pipeline's learned state may have changed, by the in-place refit that
precedes a scoring failure). -/
lemma mismaSeleccion_procesarBatch_falla (o : Oracle) (st : TrainState)
    (b : List Nat) (h : o.fitFails b = true ∨ o.scoreFails b = true) :
    mismaSeleccion (procesarBatch o st b) st := by
  cases hf : o.fitFails b with
  | true => rw [procesarBatch_of_fail o st b hf]; exact mismaSeleccion_refl st
  | false =>
      have hsf : o.scoreFails b = true := by
        rcases h with h | h
        · rw [hf] at h; cases h
        · exact h
      rw [procesarBatch_of_scoreFail o st b hf hsf]
      exact ⟨rfl, rfl, rfl⟩

lemma mismaSeleccion_foldl (o : Oracle) :
    ∀ (l : List (List Nat)) {st st' : TrainState}, mismaSeleccion st st' →
      mismaSeleccion (l.foldl (procesarBatch o) st)
        (l.foldl (procesarBatch o) st') := by
  intro l
  induction l with
  | nil => intro st st' h; exact h
  | cons b t ih => intro st st' h; exact ih (mismaSeleccion_procesarBatch o b h)

/-- The checkpoint state (`mejor_score`, `mejor_modelo`) and the live
hyperparameters after a fold are exactly those of the fold over only the
fully non-raising batches: failing batches never influence the retained
checkpoint. -/
lemma foldl_filter_exitosos (o : Oracle) :
    ∀ (l : List (List Nat)) (st : TrainState),
      mismaSeleccion (l.foldl (procesarBatch o) st)
        ((l.filter (fun b => !o.fitFails b && !o.scoreFails b)).foldl
          (procesarBatch o) st) := by
  intro l
  induction l with
  | nil => intro st; exact mismaSeleccion_refl _
  | cons b t ih =>
      intro st
      rw [List.foldl_cons]
      cases hok : (!o.fitFails b && !o.scoreFails b) with
      | true =>
          have hfil : List.filter (fun b => !o.fitFails b && !o.scoreFails b)
              (b :: t)
              = b :: List.filter (fun b => !o.fitFails b && !o.scoreFails b) t := by
            simp [List.filter_cons, hok]
          rw [hfil, List.foldl_cons]
          exact ih (procesarBatch o st b)
      | false =>
          have hfil : List.filter (fun b => !o.fitFails b && !o.scoreFails b)
              (b :: t)
              = List.filter (fun b => !o.fitFails b && !o.scoreFails b) t := by
            simp [List.filter_cons, hok]
          rw [hfil]
          have hfail : o.fitFails b = true ∨ o.scoreFails b = true := by
            cases hfa : o.fitFails b with
            | true => exact Or.inl rfl
            | false =>
                cases hsa : o.scoreFails b with
                | true => exact Or.inr rfl
                | false => rw [hfa, hsa] at hok; cases hok
          have h1 : mismaSeleccion (procesarBatch o st b) st :=
            mismaSeleccion_procesarBatch_falla o st b hfail
          exact mismaSeleccion_trans (mismaSeleccion_foldl o t h1) (ih st)

end Incremental

section Sanity

example : Incremental.batchStarts 5 2 = [0, 2, 4] := by decide

example : Incremental.batchesOf 5 [4, 0, 3, 1, 2] 2 = [[4, 0], [3, 1], [2]] := by
  decide

end Sanity

namespace Incremental

/-- C1: the specification states that no row of the frozen Evaluation
Holdout (`indices_eval`) is ever used for fitting during the epoch/batch
loop.  The code contradicts this: line 76 sets `indices = np.arange(n_samples)`
and the loop partitions a shuffle of *all* row indices into batches fed to
`modelo.fit`, with the holdout indices never excluded.  Concrete failing
run: `n_samples = 2`, `batch_size = 1`, `n_epochs = 1`.  There
`n_eval = min(1000, 2) = 2`, so the without-replacement draw of
`indices_eval` necessarily consists of rows `0` and `1` (in some order),
i.e. the holdout is `[0, 1]` up to order; and whatever the epoch's
shuffle, the loop's batches are exactly the two rows.  This theorem
evaluates the embedded loop at that input with the shuffle `[0, 1]`: the
rows fit during the loop are exactly `[0, 1]`, and they all lie in the
holdout — every batch fit operates *only* on holdout rows, refuting the
invariant. -/
theorem c1_holdout_rows_fit_in_loop :
    (lotesDeEpocas 2 (fun _ => [0, 1]) 1 1).flatten = [0, 1]
    ∧ usaFilasHoldout (lotesDeEpocas 2 (fun _ => [0, 1]) 1 1) [0, 1] = true
    ∧ (lotesDeEpocas 2 (fun _ => [0, 1]) 1 1).all
        (fun b => b.all (fun i => [0, 1].contains i)) = true := by
  refine ⟨?_, ?_, ?_⟩ <;> decide

/-- C2: inside the batch loop, whenever a batch runs fit and holdout
scoring without raising and its holdout R² strictly exceeds
`mejor_score`, the retained checkpoint `mejor_modelo` is set to a newly
cloned pipeline — same hyperparameters as the live pipeline, no learned
state — fit only on that single batch; and on any later such batch that
does not improve the score, the live pipeline is refit in place while
the retained checkpoint is left unchanged. -/
theorem c2_checkpoint_is_clone_refit_on_batch (o : Oracle) (st : TrainState)
    (b : List Nat) (h : o.fitFails b = false) (h2 : o.scoreFails b = false) :
    (scoreBeats (o.score b) st.mejorScore = true →
      (procesarBatch o st b).mejorModelo
        = some { hyper := st.modelo.hyper, fitted := some b })
    ∧ (scoreBeats (o.score b) st.mejorScore = false →
      (procesarBatch o st b).modelo = fit st.modelo b
      ∧ (procesarBatch o st b).mejorModelo = st.mejorModelo) := by
  constructor
  · intro hsb
    simp [procesarBatch, h, h2, hsb, fit, clone]
  · intro hsb
    constructor <;> simp [procesarBatch, h, h2, hsb]

/-- Witness for C2 at a concrete batch step: the never-raising constant
oracle, the initial loop state with an untrained factory pipeline, and
the batch `[0]`. -/
theorem c2_checkpoint_is_clone_refit_on_batch_witness :
    oracleConst.fitFails [0] = false
    ∧ oracleConst.scoreFails [0] = false
    ∧ ((scoreBeats (oracleConst.score [0])
          (TrainState.mk crear_pipeline_incremental none none).mejorScore = true →
        (procesarBatch oracleConst
            (TrainState.mk crear_pipeline_incremental none none) [0]).mejorModelo
          = some { hyper := (TrainState.mk crear_pipeline_incremental
                              none none).modelo.hyper,
                   fitted := some [0] })
      ∧ (scoreBeats (oracleConst.score [0])
          (TrainState.mk crear_pipeline_incremental none none).mejorScore = false →
        (procesarBatch oracleConst
            (TrainState.mk crear_pipeline_incremental none none) [0]).modelo
          = fit (TrainState.mk crear_pipeline_incremental none none).modelo [0]
        ∧ (procesarBatch oracleConst
            (TrainState.mk crear_pipeline_incremental none none) [0]).mejorModelo
          = (TrainState.mk crear_pipeline_incremental none none).mejorModelo)) :=
  ⟨rfl, rfl, c2_checkpoint_is_clone_refit_on_batch oracleConst
    (TrainState.mk crear_pipeline_incremental none none) [0] rfl rfl⟩

/-- C3: at the end of every run (one in which the warm-start fit does not
raise, since an exception there propagates out of the function),
`entrenar_por_lotes` returns `mejor_modelo` when it was ever set, and the
last in-place pipeline state otherwise; and `mejor_modelo` was set
exactly when at least one loop batch ran its whole `try` block — fit and
holdout scoring — without raising, i.e. produced a (finite, hence above
`-np.inf`) holdout score. -/
theorem c3_returns_best_checkpoint_else_live (modelo : Option Modelo)
    (n B E : Nat) (initIdx : List Nat) (perms : Nat → List Nat) (o : Oracle)
    (hw : o.fitFails initIdx = false) :
    ∃ stF : TrainState,
      stF = entrenarEpocas o n perms B E
              { modelo := fit (modelo.getD crear_pipeline_incremental) initIdx,
                mejorScore := none, mejorModelo := none }
      ∧ entrenar_por_lotes modelo n B E initIdx perms o
          = Except.ok (stF.mejorModelo.getD stF.modelo)
      ∧ ((∃ m, stF.mejorModelo = some m)
          ↔ ∃ b ∈ lotesDeEpocas n perms B E,
              o.fitFails b = false ∧ o.scoreFails b = false) := by
  refine ⟨_, rfl, ?_, ?_⟩
  · simp [entrenar_por_lotes, hw]
  · rw [entrenarEpocas_eq_foldl]
    have hinv : invEstado o
        { modelo := fit (modelo.getD crear_pipeline_incremental) initIdx,
          mejorScore := none, mejorModelo := none } :=
      ⟨rfl, fun m hm => by cases hm⟩
    have hs := mejorModelo_isSome_foldl o (lotesDeEpocas n perms B E) _ hinv
    simp only [Option.isSome_none, Bool.false_or] at hs
    constructor
    · rintro ⟨m, hm⟩
      have hsome : ((lotesDeEpocas n perms B E).foldl (procesarBatch o)
          { modelo := fit (modelo.getD crear_pipeline_incremental) initIdx,
            mejorScore := none, mejorModelo := none }).mejorModelo.isSome = true := by
        rw [hm]; rfl
      rw [hs] at hsome
      obtain ⟨b, hb, hfb⟩ := List.any_eq_true.mp hsome
      simp only [Bool.and_eq_true, Bool.not_eq_true'] at hfb
      exact ⟨b, hb, hfb.1, hfb.2⟩
    · rintro ⟨b, hb, hfb⟩
      have hsome : (lotesDeEpocas n perms B E).any
          (fun b => !o.fitFails b && !o.scoreFails b) = true :=
        List.any_eq_true.mpr ⟨b, hb, by simp [hfb.1, hfb.2]⟩
      rw [← hs] at hsome
      obtain ⟨m, hm⟩ := Option.isSome_iff_exists.mp hsome
      exact ⟨m, hm⟩

/-- Witness for C3: a two-row run, batch size 1, one epoch, constant
oracle; the hypothesis (warm-start fit does not raise) and the conclusion
at that input. -/
theorem c3_returns_best_checkpoint_else_live_witness :
    oracleConst.fitFails [0, 1] = false
    ∧ ∃ stF : TrainState,
        stF = entrenarEpocas oracleConst 2 (fun _ => [0, 1]) 1 1
                { modelo := fit ((none : Option Modelo).getD
                    crear_pipeline_incremental) [0, 1],
                  mejorScore := none, mejorModelo := none }
        ∧ entrenar_por_lotes none 2 1 1 [0, 1] (fun _ => [0, 1]) oracleConst
            = Except.ok (stF.mejorModelo.getD stF.modelo)
        ∧ ((∃ m, stF.mejorModelo = some m)
            ↔ ∃ b ∈ lotesDeEpocas 2 (fun _ => [0, 1]) 1 1,
                oracleConst.fitFails b = false
                ∧ oracleConst.scoreFails b = false) :=
  ⟨rfl, c3_returns_best_checkpoint_else_live none 2 1 1 [0, 1]
    (fun _ => [0, 1]) oracleConst rfl⟩

/-- C4, counterexample: the claim says the retained checkpoint's holdout
R² is always ≥ the holdout R² of the model as it stood immediately after
the warm-start fit.  But `mejor_score` starts at `-np.inf` and is only
ever compared against *post-batch* scores (src/utils/incremental.py lines
101-106); the warm-start model's holdout score is never entered into the
comparison.  Concrete run: two rows, `batch_size = 1`, one epoch,
warm-start sample `[0, 1]` (`initial_size = min(10·1, 2) = 2`), shuffle
`[0, 1]`, and the scores the real pipeline produces there (with
`min_samples_leaf = 3` every fit predicts a constant, so the warm-start
model fit on both rows scores `0` on the holdout while a model fit on
either single row scores `-1`).  The first batch `[0]` scores
`-1 > -inf`, so the checkpoint is set to the clone refit on `[0]`; the
second batch does not improve.  The returned checkpoint's holdout R² is
`-1`, strictly below the warm-start-only model's holdout R² of `0`. -/
theorem c4_counterexample_checkpoint_below_warm_start :
    entrenar_por_lotes (some crear_pipeline_incremental) 2 1 1 [0, 1]
        (fun _ => [0, 1]) oracleWarmMejor
      = Except.ok { hyper := crear_pipeline_incremental.hyper, fitted := some [0] }
    ∧ scoreOf oracleWarmMejor
        { hyper := crear_pipeline_incremental.hyper, fitted := some [0] }
        = some (-1)
    ∧ scoreOf oracleWarmMejor (fit crear_pipeline_incremental [0, 1]) = some 0
    ∧ (-1 : ℚ) < 0 := by
  refine ⟨rfl, by decide, by decide, by norm_num⟩

/-- C4 as amended: what the run actually guarantees is monotone
non-decrease of the best score over the *batch-fitted* states: at the end
of any run with at least one non-raising batch, the returned model is the
retained checkpoint, its holdout R² equals the final `mejor_score`, and
that score is ≥ the holdout R² that the live pipeline attained after any
non-raising batch fit of the run.  (The warm-start-only model's score is
not covered — see the counterexample.) -/
theorem c4_amended_checkpoint_dominates_batch_scores (modelo : Option Modelo)
    (n B E : Nat) (initIdx : List Nat) (perms : Nat → List Nat) (o : Oracle)
    (hw : o.fitFails initIdx = false) (b : List Nat)
    (hb : b ∈ lotesDeEpocas n perms B E) (hbf : o.fitFails b = false)
    (hbs : o.scoreFails b = false) :
    ∃ (m : Modelo) (s : ℚ),
      entrenar_por_lotes modelo n B E initIdx perms o = Except.ok m
      ∧ scoreOf o m = some s
      ∧ o.score b ≤ s := by
  have hinv : invEstado o
      { modelo := fit (modelo.getD crear_pipeline_incremental) initIdx,
        mejorScore := none, mejorModelo := none } :=
    ⟨rfl, fun m hm => by cases hm⟩
  set st0 : TrainState :=
    { modelo := fit (modelo.getD crear_pipeline_incremental) initIdx,
      mejorScore := none, mejorModelo := none } with hst0
  set l := lotesDeEpocas n perms B E with hl
  set stF := l.foldl (procesarBatch o) st0 with hstF
  have hfinv : invEstado o stF := invEstado_foldl o l st0 hinv
  have hsome : stF.mejorModelo.isSome = true := by
    rw [hstF, mejorModelo_isSome_foldl o l st0 hinv]
    have : l.any (fun b => !o.fitFails b && !o.scoreFails b) = true :=
      List.any_eq_true.mpr ⟨b, hb, by simp [hbf, hbs]⟩
    simp [this]
  obtain ⟨m, hm⟩ := Option.isSome_iff_exists.mp hsome
  have hscore : scoreOf o m = stF.mejorScore := hfinv.2 m hm
  have hge : leO (some (o.score b)) stF.mejorScore :=
    score_le_foldl_mem o st0 hb hbf hbs
  cases hms : stF.mejorScore with
  | none => rw [hms] at hge; exact absurd hge not_false
  | some s =>
      refine ⟨m, s, ?_, ?_, ?_⟩
      · have : entrenar_por_lotes modelo n B E initIdx perms o
            = Except.ok (stF.mejorModelo.getD stF.modelo) := by
          simp only [entrenar_por_lotes, hw, Bool.false_eq_true, if_false]
          rw [entrenarEpocas_eq_foldl, ← hl, ← hst0, ← hstF]
        rw [this, hm]
        rfl
      · rw [hscore, hms]
      · rw [hms] at hge
        exact hge

/-- Witness for the amended C4: single-row run with the constant oracle;
hypotheses and conclusion at that input. -/
theorem c4_amended_checkpoint_dominates_batch_scores_witness :
    oracleConst.fitFails [0] = false
    ∧ oracleConst.scoreFails [0] = false
    ∧ [0] ∈ lotesDeEpocas 1 (fun _ => [0]) 1 1
    ∧ ∃ (m : Modelo) (s : ℚ),
        entrenar_por_lotes none 1 1 1 [0] (fun _ => [0]) oracleConst
          = Except.ok m
        ∧ scoreOf oracleConst m = some s
        ∧ oracleConst.score [0] ≤ s :=
  ⟨rfl, rfl, by decide,
    c4_amended_checkpoint_dominates_batch_scores none 1 1 1 [0]
      (fun _ => [0]) oracleConst rfl [0] (by decide) rfl rfl⟩

/-- C7, counterexample: the claim says any batch-level exception is
skipped and the run "returns a model trained from the remaining batches".
The `except` branch, however, undoes nothing: `modelo.fit(X_batch,
y_batch)` (line 98) has already refit the live pipeline in place when
`modelo.predict(X_eval)` / `r2_score` (line 101) raises, so a failing
batch still leaves its learned state in the live pipeline.  Concrete run:
two rows, `batch_size = 1`, one epoch, warm-start sample `[0, 1]`,
shuffle `[0, 1]`, and an oracle in which every fit succeeds but every
holdout scoring raises (e.g. `y_eval` contains NaN).  No checkpoint is
ever set, so line 133 returns the live pipeline — whose learned state is
the fit on `[1]`, a batch whose `try` block raised.  The returned model
is trained on a failing batch, not on the remaining ones. -/
theorem c7_counterexample_failing_batch_trains_returned_model :
    entrenar_por_lotes (some crear_pipeline_incremental) 2 1 1 [0, 1]
        (fun _ => [0, 1]) oraclePredictFallaTodo
      = Except.ok { hyper := crear_pipeline_incremental.hyper, fitted := some [1] }
    ∧ oraclePredictFallaTodo.scoreFails [1] = true
    ∧ [1] ∈ lotesDeEpocas 2 (fun _ => [0, 1]) 1 1 := by
  refine ⟨rfl, rfl, by decide⟩

/-- C7 as amended: a batch-level exception is non-fatal — the batch is
logged and skipped by the `except` branch, the loop continues, and the
run completes and returns a model (`Except.ok`).  A batch whose *fit*
raises leaves the whole loop state unchanged; a batch whose holdout
prediction/scoring raises leaves `mejor_score`/`mejor_modelo` unchanged
but has already refit the live pipeline in place on that batch.
Consequently the retained checkpoint state (best score and best model)
at the end of the run is exactly that of a run over only the fully
non-raising batches — but the returned model is guaranteed to come from
the remaining batches only via the checkpoint; when no checkpoint was
ever set, the returned live pipeline may carry a failing batch's fit
(see the counterexample). -/
theorem c7_amended_failures_nonfatal_checkpoint_unaffected
    (modelo : Option Modelo) (n B E : Nat) (initIdx : List Nat)
    (perms : Nat → List Nat) (o : Oracle)
    (hw : o.fitFails initIdx = false) :
    (∀ (st : TrainState) (b : List Nat), o.fitFails b = true →
      procesarBatch o st b = st)
    ∧ (∀ (st : TrainState) (b : List Nat), o.fitFails b = false →
        o.scoreFails b = true →
      procesarBatch o st b = { st with modelo := fit st.modelo b })
    ∧ ∃ stF stS : TrainState,
        stF = (lotesDeEpocas n perms B E).foldl (procesarBatch o)
                { modelo := fit (modelo.getD crear_pipeline_incremental) initIdx,
                  mejorScore := none, mejorModelo := none }
        ∧ stS = ((lotesDeEpocas n perms B E).filter
                  (fun b => !o.fitFails b && !o.scoreFails b)).foldl
                  (procesarBatch o)
                  { modelo := fit (modelo.getD crear_pipeline_incremental) initIdx,
                    mejorScore := none, mejorModelo := none }
        ∧ entrenar_por_lotes modelo n B E initIdx perms o
            = Except.ok (stF.mejorModelo.getD stF.modelo)
        ∧ stF.mejorScore = stS.mejorScore
        ∧ stF.mejorModelo = stS.mejorModelo := by
  refine ⟨fun st b h => procesarBatch_of_fail o st b h,
    fun st b h h2 => procesarBatch_of_scoreFail o st b h h2,
    _, _, rfl, rfl, ?_, ?_, ?_⟩
  · simp only [entrenar_por_lotes, hw, Bool.false_eq_true, if_false]
    rw [entrenarEpocas_eq_foldl]
  · exact (foldl_filter_exitosos o (lotesDeEpocas n perms B E) _).1
  · exact (foldl_filter_exitosos o (lotesDeEpocas n perms B E) _).2.1

/-- Witness for the amended C7: a two-row run in which batch `[1]` fails
during holdout scoring; the hypothesis and the conclusion at that
input. -/
theorem c7_amended_failures_nonfatal_checkpoint_unaffected_witness :
    oraclePredictFallaLote.fitFails [0, 1] = false
    ∧ ((∀ (st : TrainState) (b : List Nat),
          oraclePredictFallaLote.fitFails b = true →
        procesarBatch oraclePredictFallaLote st b = st)
      ∧ (∀ (st : TrainState) (b : List Nat),
            oraclePredictFallaLote.fitFails b = false →
            oraclePredictFallaLote.scoreFails b = true →
          procesarBatch oraclePredictFallaLote st b
            = { st with modelo := fit st.modelo b })
      ∧ ∃ stF stS : TrainState,
          stF = (lotesDeEpocas 2 (fun _ => [0, 1]) 1 1).foldl
                  (procesarBatch oraclePredictFallaLote)
                  { modelo := fit ((none : Option Modelo).getD
                      crear_pipeline_incremental) [0, 1],
                    mejorScore := none, mejorModelo := none }
          ∧ stS = ((lotesDeEpocas 2 (fun _ => [0, 1]) 1 1).filter
                    (fun b => !oraclePredictFallaLote.fitFails b
                      && !oraclePredictFallaLote.scoreFails b)).foldl
                    (procesarBatch oraclePredictFallaLote)
                    { modelo := fit ((none : Option Modelo).getD
                        crear_pipeline_incremental) [0, 1],
                      mejorScore := none, mejorModelo := none }
          ∧ entrenar_por_lotes none 2 1 1 [0, 1] (fun _ => [0, 1])
              oraclePredictFallaLote
              = Except.ok (stF.mejorModelo.getD stF.modelo)
          ∧ stF.mejorScore = stS.mejorScore
          ∧ stF.mejorModelo = stS.mejorModelo) :=
  ⟨rfl, c7_amended_failures_nonfatal_checkpoint_unaffected none 2 1 1 [0, 1]
    (fun _ => [0, 1]) oraclePredictFallaLote rfl⟩

/-- C8: for every epoch count `E ≥ 1` and batch size `B` with
`1 ≤ B ≤ n` on a non-empty dataset of `n` rows (each epoch's shuffle is a
permutation of all `n` row indices, so it has length `n`), and a
warm-start fit that does not raise, `entrenar_por_lotes` returns a
non-null model (the Lean embedding is a total function, so termination
is by construction); there is no early stopping: the loop processes
exactly `E · ⌈n/B⌉` batches — `⌈n/B⌉ ≥ 1` per epoch, every epoch — and
every one of those batches is a non-empty index slice. -/
theorem c8_terminates_all_epochs_nonnull (modelo : Option Modelo)
    (n B E : Nat) (initIdx : List Nat) (perms : Nat → List Nat) (o : Oracle)
    (hn : 1 ≤ n) (hB : 1 ≤ B) (hBn : B ≤ n) (hE : 1 ≤ E)
    (hperm : ∀ e, (perms e).length = n)
    (hw : o.fitFails initIdx = false) :
    (∃ m : Modelo, entrenar_por_lotes modelo n B E initIdx perms o
        = Except.ok m)
    ∧ (lotesDeEpocas n perms B E).length = E * ((n + B - 1) / B)
    ∧ 1 ≤ (n + B - 1) / B
    ∧ ∀ b ∈ lotesDeEpocas n perms B E, b ≠ [] := by
  have hBpos : 0 < B := hB
  refine ⟨?_, ?_, ?_, ?_⟩
  · simp only [entrenar_por_lotes, hw, Bool.false_eq_true, if_false]
    exact ⟨_, rfl⟩
  · unfold lotesDeEpocas
    rw [List.length_flatten, List.map_map]
    have hconst : ((List.range E).map
        (fun e => (batchesOf n (perms e) B).length))
        = List.replicate E ((n + B - 1) / B) := by
      have hlen : ∀ e, (batchesOf n (perms e) B).length = (n + B - 1) / B := by
        intro e
        unfold batchesOf batchStarts
        simp
      calc ((List.range E).map (fun e => (batchesOf n (perms e) B).length))
          = (List.range E).map (fun _ => (n + B - 1) / B) := by
            exact List.map_congr_left (fun e _ => hlen e)
        _ = List.replicate E ((n + B - 1) / B) := by
            rw [List.map_const', List.length_range]
    rw [show ((fun l : List (List Nat) => l.length) ∘
          fun e => batchesOf n (perms e) B)
        = fun e => (batchesOf n (perms e) B).length from rfl]
    rw [hconst, List.sum_replicate, smul_eq_mul]
  · rw [Nat.one_le_div_iff hBpos]
    omega
  · intro b hb
    unfold lotesDeEpocas at hb
    obtain ⟨bl, hbl, hbmem⟩ := List.mem_flatten.mp hb
    obtain ⟨e, -, rfl⟩ := List.mem_map.mp hbl
    obtain ⟨s, hs, rfl⟩ := List.mem_map.mp hbmem
    obtain ⟨i, hi, rfl⟩ := List.mem_map.mp hs
    rw [List.mem_range] at hi
    have hiB : i * B + B ≤ n + B - 1 := by
      have h1 : (i + 1) * B ≤ ((n + B - 1) / B) * B :=
        Nat.mul_le_mul_right B hi
      have h2 : ((n + B - 1) / B) * B ≤ n + B - 1 := Nat.div_mul_le_self _ _
      calc i * B + B = (i + 1) * B := by ring
        _ ≤ ((n + B - 1) / B) * B := h1
        _ ≤ n + B - 1 := h2
    have hlen : (((perms e).drop (i * B)).take B).length = min B (n - i * B) := by
      rw [List.length_take, List.length_drop, hperm e]
    have hpos : 0 < (((perms e).drop (i * B)).take B).length := by
      rw [hlen]
      omega
    exact List.ne_nil_of_length_pos hpos

/-- Witness for C8: `n = 2`, `B = 1`, `E = 1`, identity shuffle, constant
oracle; hypotheses and conclusion at that input. -/
theorem c8_terminates_all_epochs_nonnull_witness :
    (1 ≤ 2 ∧ 1 ≤ 1 ∧ 1 ≤ 2 ∧ 1 ≤ 1)
    ∧ (∀ e : Nat, ((fun _ : Nat => [0, 1]) e).length = 2)
    ∧ oracleConst.fitFails [0, 1] = false
    ∧ ((∃ m : Modelo, entrenar_por_lotes none 2 1 1 [0, 1]
          (fun _ => [0, 1]) oracleConst = Except.ok m)
      ∧ (lotesDeEpocas 2 (fun _ => [0, 1]) 1 1).length = 1 * ((2 + 1 - 1) / 1)
      ∧ 1 ≤ (2 + 1 - 1) / 1
      ∧ ∀ b ∈ lotesDeEpocas 2 (fun _ => [0, 1]) 1 1, b ≠ []) :=
  ⟨by omega, fun _ => rfl, rfl,
    c8_terminates_all_epochs_nonnull none 2 1 1 [0, 1] (fun _ => [0, 1])
      oracleConst (by omega) (by omega) (by omega) (by omega)
      (fun _ => rfl) rfl⟩

end Incremental

namespace EntrenarModelo

/-- C6, counterexample: the claim says loading a bundle whose manifest
contains a column absent from the current data does not raise, aligning
by dropping extra current columns and adding zero-filled columns for the
missing ones.  The code has no zero-filling at all: line 93 of
src/entrenar_modelo.py is a plain pandas selection `X = X[columnas_modelo]`
against the engineered feature frame, which raises `KeyError` when any
selected column is not in the frame.  Concrete input: stored bundle from
a run with targets `["b", "c"]` (so `'columnas' = ["b", "c"]` and arity
2), reloaded with current target `["b"]` and current feature columns
`["f1", "f2"]` (features exclude the targets): the stored list differs
from the current target list as a set, the drift branch fires, and
`X[["b", "c"]]` raises instead of aligning. -/
theorem c6_counterexample_missing_manifest_column_raises :
    cargar_y_alinear (Bundle.mk (some 2) (some ["b", "c"])) 1 ["b"]
        ["f1", "f2"]
      = Except.error "KeyError: columns not in index" := rfl

/-- C6 as amended: when the stored `'columnas'` list (the previous run's
target list) differs as a set from the current target list, the drift
branch fires and records the drift, then re-selects
`X = X[columnas_modelo]` from the engineered *feature* frame: the load
does not raise exactly when every stored name is among the current
feature columns, and then the result is the stored list itself, in
stored order (feature columns not in it are dropped); otherwise the
selection raises `KeyError` — no zero-filled column is ever added.  In
particular, since the engineered features exclude the current targets,
any stored name that is still a current target makes the selection
fail. -/
theorem c6_amended_alignment_or_keyerror (bundle : Bundle) (nTargets : Nat)
    (cols objetivos xCols : List String)
    (hc : bundle.columnas = some cols) (hne : cols ≠ [])
    (hset : setEq cols objetivos = false) :
    (cols.all (fun c => xCols.contains c) = true →
      cargar_y_alinear bundle nTargets objetivos xCols
        = Except.ok
            (verificar_arity (ModeloCargado.almacenado bundle.modeloArity)
              nTargets, cols, true))
    ∧ (cols.all (fun c => xCols.contains c) = false →
      cargar_y_alinear bundle nTargets objetivos xCols
        = Except.error "KeyError: columns not in index")
    ∧ ((∀ c ∈ objetivos, c ∉ xCols) → ∀ c ∈ cols, c ∈ objetivos →
      cols.all (fun c => xCols.contains c) = false) := by
  refine ⟨?_, ?_, ?_⟩
  · intro hall
    have hsel : seleccionarColumnasDf cols xCols = Except.ok cols := by
      unfold seleccionarColumnasDf
      rw [if_pos hall]
    simp [cargar_y_alinear, hc, hne, hset, hsel]
  · intro hall
    have hsel : seleccionarColumnasDf cols xCols
        = Except.error "KeyError: columns not in index" := by
      unfold seleccionarColumnasDf
      rw [if_neg (by rw [hall]; simp)]
    simp [cargar_y_alinear, hc, hne, hset, hsel]
  · intro hdisj c hcc hco
    rw [List.all_eq_false]
    exact ⟨c, hcc, by simpa using hdisj c hco⟩

/-- Witness for the amended C6: stored `'columnas' = ["t1"]` (the old
single target, now an ordinary numeric feature of the current run),
current target list `["b"]`, current feature columns `["t1", "f1"]`.
The drift branch fires; every stored name is a current feature column,
so the load aligns `X` to `["t1"]` and records the drift. -/
theorem c6_amended_alignment_or_keyerror_witness :
    (Bundle.mk (some 1) (some ["t1"])).columnas = some ["t1"]
    ∧ (["t1"] : List String) ≠ []
    ∧ setEq ["t1"] ["b"] = false
    ∧ ((["t1"].all (fun c => ["t1", "f1"].contains c) = true →
        cargar_y_alinear (Bundle.mk (some 1) (some ["t1"])) 1 ["b"]
            ["t1", "f1"]
          = Except.ok
              (verificar_arity
                (ModeloCargado.almacenado
                  (Bundle.mk (some 1) (some ["t1"])).modeloArity) 1,
               ["t1"], true))
      ∧ (["t1"].all (fun c => ["t1", "f1"].contains c) = false →
        cargar_y_alinear (Bundle.mk (some 1) (some ["t1"])) 1 ["b"]
            ["t1", "f1"]
          = Except.error "KeyError: columns not in index")
      ∧ ((∀ c ∈ (["b"] : List String), c ∉ (["t1", "f1"] : List String)) →
        ∀ c ∈ (["t1"] : List String), c ∈ (["b"] : List String) →
          ["t1"].all (fun c => ["t1", "f1"].contains c) = false)) :=
  ⟨rfl, by simp, by decide,
    c6_amended_alignment_or_keyerror (Bundle.mk (some 1) (some ["t1"])) 1
      ["t1"] ["b"] ["t1", "f1"] rfl (by simp) (by decide)⟩

end EntrenarModelo

namespace Evaluacion

/-- C9, counterexample: the claim says `evaluar_modelo` never raises on
metric-computation failure and records a failed holdout evaluation as
unavailable metrics.  But the holdout block catches only `ValueError`
(`except ValueError as e`, evaluacion.py line 61), while the
cross-validation block catches every exception (line 35).  Concrete
input: cross-validation succeeds, and the holdout evaluation raises an
exception that is not a `ValueError` (e.g. a `TypeError` from a malformed
holdout container): `evaluar_modelo` propagates the exception instead of
returning a result dictionary. -/
theorem c9_counterexample_non_valueerror_propagates :
    evaluar_modelo
        (Except.ok (CvMetricas.mk 0 0 0 0 0 0))
        (some (Except.error (PyError.otherError "TypeError: bad operand")))
      = Except.error (PyError.otherError "TypeError: bad operand") := rfl

/-- C9 as amended: a cross-validation failure of *any* exception class is
recorded as an unavailable `cv` entry (with the exception's message)
rather than raised, and a holdout-evaluation failure that is a
`ValueError` (e.g. shape mismatch) is recorded as an unavailable
`validation` entry rather than raised; in those cases a result dictionary
is returned.  Holdout-evaluation failures of any other exception class
propagate (see the counterexample), so the no-raise guarantee holds
exactly when any holdout failure is a `ValueError`. -/
theorem c9_amended_error_routing (cvCalc : Except PyError CvMetricas)
    (valCalc : Option (Except PyError ValMetricas))
    (hval : ∀ e, valCalc = some (Except.error e)
      → ∃ msg, e = PyError.valueError msg) :
    ∃ r : Resultados, evaluar_modelo cvCalc valCalc = Except.ok r
      ∧ (∀ e, cvCalc = Except.error e
          → r.cv = CvResultado.noDisponible e.msg)
      ∧ (∀ m, cvCalc = Except.ok m → r.cv = CvResultado.metricas m)
      ∧ (∀ msg, valCalc = some (Except.error (PyError.valueError msg))
          → r.validation = some ValResultado.noDisponible) := by
  rcases valCalc with _ | val
  · refine ⟨_, rfl, ?_, ?_, ?_⟩
    · rintro e rfl; rfl
    · rintro m rfl; rfl
    · rintro msg h; cases h
  · rcases val with e | m
    · obtain ⟨msg, rfl⟩ := hval e rfl
      refine ⟨_, rfl, ?_, ?_, ?_⟩
      · rintro e' rfl; rfl
      · rintro m' rfl; rfl
      · rintro msg' h; rfl
    · refine ⟨_, rfl, ?_, ?_, ?_⟩
      · rintro e' rfl; rfl
      · rintro m' rfl; rfl
      · rintro msg' h; cases h

/-- Witness for the amended C9: cross-validation fails (degenerate fold)
and the supplied holdout evaluation fails with a shape-mismatch
`ValueError`; both are recorded as unavailable and a dictionary is
returned. -/
theorem c9_amended_error_routing_witness :
    (∀ e, (some (Except.error (PyError.valueError "shape mismatch"))
            : Option (Except PyError ValMetricas))
          = some (Except.error e) → ∃ msg, e = PyError.valueError msg)
    ∧ ∃ r : Resultados,
        evaluar_modelo (Except.error (PyError.otherError "degenerate fold"))
            (some (Except.error (PyError.valueError "shape mismatch")))
          = Except.ok r
        ∧ (∀ e, (Except.error (PyError.otherError "degenerate fold")
              : Except PyError CvMetricas) = Except.error e
            → r.cv = CvResultado.noDisponible e.msg)
        ∧ (∀ m, (Except.error (PyError.otherError "degenerate fold")
              : Except PyError CvMetricas) = Except.ok m
            → r.cv = CvResultado.metricas m)
        ∧ (∀ msg, (some (Except.error (PyError.valueError "shape mismatch"))
              : Option (Except PyError ValMetricas))
            = some (Except.error (PyError.valueError msg))
            → r.validation = some ValResultado.noDisponible) :=
  ⟨fun e he => ⟨"shape mismatch", by cases he; rfl⟩,
    c9_amended_error_routing
      (Except.error (PyError.otherError "degenerate fold"))
      (some (Except.error (PyError.valueError "shape mismatch")))
      (fun e he => ⟨"shape mismatch", by cases he; rfl⟩)⟩

end Evaluacion

namespace Imputacion

/-- C10: `imputar_valores_faltantes` mean-imputes only when its argument
is a numpy `ndarray`; every other input — in particular any pandas
DataFrame, such as the drift-aligned feature matrix of
src/entrenar_modelo.py line 98 — is returned unchanged, missing values
and all, so the pre-fit safeguard is silently skipped for DataFrames.
The third and fourth conjuncts exhibit this on concrete data with a
missing cell: as a DataFrame it passes through untouched, while the same
rows as an ndarray come back imputed (changed). -/
theorem c10_dataframe_input_skips_imputation :
    (∀ (cols : List String) (filas : List (List (Option ℚ))),
      imputar_valores_faltantes (Datos.dataframe cols filas)
        = Datos.dataframe cols filas)
    ∧ (∀ filas, imputar_valores_faltantes (Datos.ndarray filas)
        = Datos.ndarray ((fitTransformMedia filas).map (fun f => f.map some)))
    ∧ imputar_valores_faltantes
        (Datos.dataframe ["a", "b"] [[some 1, none], [some 3, some 2]])
        = Datos.dataframe ["a", "b"] [[some 1, none], [some 3, some 2]]
    ∧ imputar_valores_faltantes
        (Datos.ndarray [[some 1, none], [some 3, some 2]])
        ≠ Datos.ndarray [[some 1, none], [some 3, some 2]] := by
  refine ⟨fun _ _ => rfl, fun _ => rfl, rfl, ?_⟩
  decide

end Imputacion
